import Mathlib

/-!
Verification of the Scarf Store browser/backend boundary layer: the Session
Gate (Next.js middleware) and the API Forwarder (catch-all route handler).
Definitions are shallow embeddings of the TypeScript source; theorems settle
the specification claims about them.
-/

set_option autoImplicit false

namespace ScarfStore

/-! ## Session Gate (middleware.ts)

The middleware reads the request pathname and cookie set and decides to
allow, redirect to `/home`, or redirect to `/login?next=...`. -/

def AUTH_ONLY_PATHS : List String := ["/login"]

def PUBLIC_PREFIXES : List String := ["/login"]

def PUBLIC_EXACT : List String := ["/"]

def SESSION_COOKIE : String := "session_id"

/-- A cookie set as seen by the middleware: a list of name/value pairs. -/
abbrev CookieJar := List (String × String)

/-- A redirect target: path plus query parameters (pre-serialization). -/
structure Url where
  path : String
  query : List (String × String)
deriving DecidableEq

/-- Outcome of the middleware: pass through, or redirect to a URL. -/
inductive GateResult where
  | next
  | redirect (url : Url)
deriving DecidableEq

/-- Embeds `request.cookies.get(SESSION_COOKIE)?.value`. -/
def sessionValue (cookies : CookieJar) : Option String :=
  (cookies.find? (fun c => c.1 == SESSION_COOKIE)).map (fun c => c.2)

/-- Embeds `const isAuthenticated = !!sessionId`: JavaScript truthiness, so an
empty-string cookie value counts as unauthenticated. -/
def isAuthenticatedOf (cookies : CookieJar) : Bool :=
  match sessionValue cookies with
  | none => false
  | some v => !(v.data.isEmpty)

/-- Embeds JavaScript `s.startsWith(p)` as a character-level check. -/
def strStartsWith (s p : String) : Bool :=
  p.data.isPrefixOf s.data

/-- Embeds the `isPublic` computation of the middleware. -/
def isPublicOf (pathname : String) : Bool :=
  PUBLIC_EXACT.contains pathname ||
    PUBLIC_PREFIXES.any (fun p => strStartsWith pathname p)

/-- Embeds `AUTH_ONLY_PATHS.some((p) => pathname.startsWith(p))`. -/
def matchesAuthOnly (pathname : String) : Bool :=
  AUTH_ONLY_PATHS.any (fun p => strStartsWith pathname p)

def homeUrl : Url := ⟨"/home", []⟩

/-- The login redirect built by the middleware: `new URL("/login", ...)` with
`searchParams.set("next", pathname)`. -/
def loginRedirect (pathname : String) : Url :=
  ⟨"/login", [("next", pathname)]⟩

/-- The middleware decision function, from middleware.ts. -/
def middleware (pathname : String) (cookies : CookieJar) : GateResult :=
  if matchesAuthOnly pathname && isAuthenticatedOf cookies then
    .redirect homeUrl
  else if !isPublicOf pathname && !isAuthenticatedOf cookies then
    .redirect (loginRedirect pathname)
  else
    .next

/-! ### URL serialization (WHATWG application/x-www-form-urlencoded)

Used only to state the concrete `%2F` example of the redirect claim: how the
runtime serializes the query parameters set on the redirect URL. -/

def hexDigitUpper (n : Nat) : Char :=
  if n < 10 then Char.ofNat (48 + n) else Char.ofNat (55 + n)

/-- UTF-8 bytes of a character, as natural numbers. -/
def utf8Bytes (c : Char) : List Nat :=
  let n := c.toNat
  if n < 128 then [n]
  else if n < 2048 then [192 + n / 64, 128 + n % 64]
  else if n < 65536 then [224 + n / 4096, 128 + (n / 64) % 64, 128 + n % 64]
  else [240 + n / 262144, 128 + (n / 4096) % 64, 128 + (n / 64) % 64, 128 + n % 64]

/-- Characters the form-urlencoded serializer leaves unescaped. -/
def isFormSafe (c : Char) : Bool :=
  c.isAlphanum || c == '*' || c == '-' || c == '.' || c == '_'

def percentByte (b : Nat) : String :=
  String.mk ['%', hexDigitUpper (b / 16), hexDigitUpper (b % 16)]

def formEncodeChar (c : Char) : String :=
  if c == ' ' then "+"
  else if isFormSafe c then String.mk [c]
  else String.join ((utf8Bytes c).map percentByte)

def formEncode (s : String) : String :=
  String.join (s.data.map formEncodeChar)

def serializeQuery : List (String × String) → String
  | [] => ""
  | [p] => formEncode p.1 ++ "=" ++ formEncode p.2
  | p :: q :: rest =>
      formEncode p.1 ++ "=" ++ formEncode p.2 ++ "&" ++ serializeQuery (q :: rest)

def serializeUrl (u : Url) : String :=
  u.path ++ (if u.query.isEmpty then "" else "?" ++ serializeQuery u.query)

/-! ### Gate lemmas -/

/-- With the concrete rule lists, an auth-only match implies a public match:
both lists are exactly `["/login"]`. -/
theorem authOnly_imp_public (pathname : String)
    (h : matchesAuthOnly pathname = true) : isPublicOf pathname = true := by
  simp only [matchesAuthOnly, AUTH_ONLY_PATHS, List.any_cons, List.any_nil,
    Bool.or_false] at h
  simp [isPublicOf, PUBLIC_PREFIXES, PUBLIC_EXACT, h]

theorem isAuthenticatedOf_of_find_none (cookies : CookieJar)
    (hc : cookies.find? (fun c => c.1 == SESSION_COOKIE) = none) :
    isAuthenticatedOf cookies = false := by
  simp [isAuthenticatedOf, sessionValue, hc]

/-! ### Gate theorems -/

/-- Claim C2 counterexample: the pathname "/login" is in the public sets, yet
with a session cookie present the gate redirects it to "/home" instead of
allowing it, because the auth-only check runs first. -/
theorem public_login_redirected_counterexample :
    isPublicOf "/login" = true ∧
    middleware "/login" [("session_id", "abc123")] = GateResult.redirect homeUrl ∧
    middleware "/login" [("session_id", "abc123")] ≠ GateResult.next := by
  refine ⟨by decide, by decide, by decide⟩

/-- Claim C2 (amended): a public path is allowed for every cookie set unless it
also matches an auth-only rule while the session cookie carries a non-empty
value, in which case the gate redirects to "/home". -/
theorem public_path_gate_behavior (pathname : String) (cookies : CookieJar)
    (hpub : isPublicOf pathname = true) :
    ((matchesAuthOnly pathname && isAuthenticatedOf cookies) = true →
      middleware pathname cookies = GateResult.redirect homeUrl) ∧
    ((matchesAuthOnly pathname && isAuthenticatedOf cookies) = false →
      middleware pathname cookies = GateResult.next) := by
  constructor
  · intro h
    simp [middleware, h]
  · intro h
    simp [middleware, h, hpub]

/-- Claim C2 amended-claim witness at a concrete input: the public exact path
"/" is allowed even with a session cookie present. -/
theorem public_path_gate_behavior_witness :
    middleware "/" [("session_id", "tok")] = GateResult.next :=
  (public_path_gate_behavior "/" [("session_id", "tok")] (by decide)).2 (by decide)

/-- Claim C4: for a non-public path with no `session_id` cookie in the cookie
set, the gate redirects to "/login" carrying a query parameter "next" whose
value is the originally requested pathname. -/
theorem protected_no_cookie_redirects_login (pathname : String)
    (cookies : CookieJar)
    (hpub : isPublicOf pathname = false)
    (hc : cookies.find? (fun c => c.1 == SESSION_COOKIE) = none) :
    middleware pathname cookies = GateResult.redirect (loginRedirect pathname) := by
  have hauth := isAuthenticatedOf_of_find_none cookies hc
  simp [middleware, hauth, hpub]

/-- Claim C4 witness: requesting "/admin/dashboard" with no cookies redirects
to the login URL, which serializes to "/login?next=%2Fadmin%2Fdashboard". -/
theorem protected_no_cookie_redirects_login_witness :
    middleware "/admin/dashboard" [] =
      GateResult.redirect (loginRedirect "/admin/dashboard") ∧
    serializeUrl (loginRedirect "/admin/dashboard") =
      "/login?next=%2Fadmin%2Fdashboard" :=
  ⟨protected_no_cookie_redirects_login "/admin/dashboard" [] (by decide) rfl,
   by decide⟩

/-- Claim C7 counterexample: the session cookie is present (with an empty
value) on the auth-only path "/login", yet the gate allows the request instead
of redirecting to "/home", because the code tests JavaScript truthiness of the
value, not presence of the cookie. -/
theorem auth_only_empty_session_counterexample :
    matchesAuthOnly "/login" = true ∧
    (([("session_id", "")] : CookieJar).find?
      (fun c => c.1 == SESSION_COOKIE)).isSome = true ∧
    middleware "/login" [("session_id", "")] = GateResult.next := by
  refine ⟨by decide, by decide, by decide⟩

/-- Claim C7 (amended): on an auth-only path, a session cookie present with a
non-empty value causes a redirect to "/home"; an absent or empty-valued
session cookie lets the request proceed. -/
theorem auth_only_gate_behavior (pathname : String) (cookies : CookieJar)
    (h : matchesAuthOnly pathname = true) :
    (isAuthenticatedOf cookies = true →
      middleware pathname cookies = GateResult.redirect homeUrl) ∧
    (isAuthenticatedOf cookies = false →
      middleware pathname cookies = GateResult.next) := by
  have hpub := authOnly_imp_public pathname h
  constructor
  · intro ha
    simp [middleware, h, ha]
  · intro ha
    simp [middleware, ha, hpub]

/-- Claim C7 amended-claim witness: "/login" with a non-empty session cookie
redirects to "/home". -/
theorem auth_only_gate_behavior_witness :
    middleware "/login" [("session_id", "tok")] = GateResult.redirect homeUrl :=
  (auth_only_gate_behavior "/login" [("session_id", "tok")] (by decide)).1
    (by decide)

/-- Claim C10 counterexample: "/login-help" is classified both public and
auth-only, and the session cookie is present (empty value), yet the gate
allows the request rather than redirecting to "/home" as the claim states for
any present session cookie. -/
theorem login_prefix_empty_session_counterexample :
    isPublicOf "/login-help" = true ∧
    matchesAuthOnly "/login-help" = true ∧
    (([("session_id", "")] : CookieJar).find?
      (fun c => c.1 == SESSION_COOKIE)).isSome = true ∧
    middleware "/login-help" [("session_id", "")] = GateResult.next := by
  refine ⟨by decide, by decide, by decide, by decide⟩

/-- Claim C10 (amended): every pathname that merely starts with "/login" is
classified both public and auth-only; with a non-empty session cookie the gate
redirects it to "/home", otherwise it is allowed — it can never trigger the
redirect-to-login branch. -/
theorem login_prefix_paths (pathname : String) (cookies : CookieJar)
    (h : strStartsWith pathname "/login" = true) :
    isPublicOf pathname = true ∧
    matchesAuthOnly pathname = true ∧
    middleware pathname cookies =
      (if isAuthenticatedOf cookies then GateResult.redirect homeUrl
       else GateResult.next) := by
  have hao : matchesAuthOnly pathname = true := by
    simp [matchesAuthOnly, AUTH_ONLY_PATHS, h]
  have hpub := authOnly_imp_public pathname hao
  refine ⟨hpub, hao, ?_⟩
  cases ha : isAuthenticatedOf cookies with
  | true => simp [middleware, hao, ha]
  | false => simp [middleware, ha, hpub]

/-- Claim C10 amended-claim witness: "/login/reset" with no cookies is public,
auth-only, and allowed. -/
theorem login_prefix_paths_witness :
    isPublicOf "/login/reset" = true ∧
    matchesAuthOnly "/login/reset" = true ∧
    middleware "/login/reset" [] =
      (if isAuthenticatedOf [] then GateResult.redirect homeUrl
       else GateResult.next) :=
  login_prefix_paths "/login/reset" [] (by decide)

/-! ## API Forwarder (app/api/[...path]/route.ts)

Each verb handler reconstructs the backend URL, performs one outbound fetch,
and relays the backend response. The fetch outcome is modelled as an oracle
value; the handler returns its own outcome plus the list of outbound calls it
made. In the source, GET has no try/catch, while POST, PUT and DELETE wrap
their bodies in try/catch and synthesize a 500 JSON error response. -/

/-- One incoming request to the catch-all route: wildcard segments, the
serialized query string, headers, parsed cookies, and the raw text body. -/
structure ProxyRequest where
  pathSegments : List String
  searchParams : String
  headers : List (String × String)
  cookies : CookieJar
  body : String
deriving DecidableEq

/-- A backend response as seen by the handler after `await response.text()`. -/
structure BackendResponse where
  status : Nat
  headers : List (String × String)
  body : String
deriving DecidableEq

/-- One outbound fetch performed by a handler. -/
structure OutboundRequest where
  url : String
  method : String
  headers : List (String × String)
  body : Option String
deriving DecidableEq

/-- The response the handler hands back to the browser. -/
structure OutResponse where
  status : Nat
  headers : List (String × String)
  body : String
deriving DecidableEq

/-- Outcome of the single outbound fetch: a backend response, or a thrown
error (network failure, timeout, DNS failure) rendered as a string. -/
abbrev FetchResult := Except String BackendResponse

/-- A handler run: its outcome (an uncaught exception is `Except.error`) and
the outbound calls it made. -/
abbrev HandlerResult := Except String OutResponse × List OutboundRequest

/-- Embeds JavaScript `key.toLowerCase()` character by character. -/
def strToLower (s : String) : String :=
  ⟨s.data.map Char.toLower⟩

/-- Embeds the target URL construction shared by all four handlers. -/
def targetUrl (req : ProxyRequest) : String :=
  "http://localhost:8000/api/" ++ String.intercalate "/" req.pathSegments ++
    (if req.searchParams.data.isEmpty then "" else "?" ++ req.searchParams)

/-- Embeds `Headers.set`: case-insensitively replaces a header. -/
def setHeader (hs : List (String × String)) (k v : String) :
    List (String × String) :=
  hs.filter (fun p => strToLower p.1 != strToLower k) ++ [(k, v)]

/-- Embeds `Headers.append`. -/
def appendHeader (hs : List (String × String)) (k v : String) :
    List (String × String) :=
  hs ++ [(k, v)]

def isSetCookieKey (k : String) : Bool :=
  strToLower k == "set-cookie"

/-- The keys the relay loop refuses to copy. -/
def isDroppedKey (k : String) : Bool :=
  strToLower k == "transfer-encoding" || strToLower k == "content-encoding"

/-- One iteration of the `response.headers.forEach` relay loop. -/
def relayStep (acc : List (String × String)) (p : String × String) :
    List (String × String) :=
  if isSetCookieKey p.1 then appendHeader acc p.1 p.2
  else if isDroppedKey p.1 then acc
  else setHeader acc p.1 p.2

/-- The headers of the outgoing response, built by iterating over the backend
response headers starting from the fresh `NextResponse` headers. -/
def relayHeaders (hs : List (String × String)) : List (String × String) :=
  hs.foldl relayStep []

/-- The outgoing response relayed from a backend response: same status, same
body text, headers copied through the relay loop. -/
def relayResponse (resp : BackendResponse) : OutResponse :=
  ⟨resp.status, relayHeaders resp.headers, resp.body⟩

/-- Embeds `allCookies.map(c => name=value).join("; ")`. -/
def cookieHeaderValue (cookies : CookieJar) : String :=
  String.intercalate "; " (cookies.map (fun c => c.1 ++ "=" ++ c.2))

/-- Embeds `buildHeadersWithCookies`: a copy of the incoming headers in which,
when at least one cookie is present, the Cookie header is overwritten with the
re-serialized cookie list. -/
def buildHeadersWithCookies (req : ProxyRequest) : List (String × String) :=
  if req.cookies.isEmpty then req.headers
  else setHeader req.headers "Cookie" (cookieHeaderValue req.cookies)

def hexDigitLower (n : Nat) : Char :=
  if n < 10 then Char.ofNat (48 + n) else Char.ofNat (87 + n)

/-- Embeds the escaping JSON.stringify applies to one string character. -/
def jsonEscapeChar (c : Char) : String :=
  if c == '"' then "\\\""
  else if c == '\\' then "\\\\"
  else if c == '\x08' then "\\b"
  else if c == '\x09' then "\\t"
  else if c == '\x0a' then "\\n"
  else if c == '\x0c' then "\\f"
  else if c == '\x0d' then "\\r"
  else if c.toNat < 32 then
    "\\u00" ++ String.mk [hexDigitLower (c.toNat / 16), hexDigitLower (c.toNat % 16)]
  else String.mk [c]

def jsonStringLit (s : String) : String :=
  "\"" ++ String.join (s.data.map jsonEscapeChar) ++ "\""

/-- Embeds `JSON.stringify(\x7b error: Route handler error: ... \x7d)`. -/
def errorEnvelope (e : String) : String :=
  "\x7b\"error\":" ++ jsonStringLit ("Route handler error: " ++ e) ++ "\x7d"

/-- The synthetic 500 response built in the catch blocks of POST/PUT/DELETE. -/
def syntheticError (e : String) : OutResponse :=
  ⟨500, [("Content-Type", "application/json")], errorEnvelope e⟩

/-- Embeds `body || undefined`: an empty body is forwarded as absent. -/
def bodyOpt (body : String) : Option String :=
  if body.data.isEmpty then none else some body

/-- The GET handler. No try/catch in the source: a thrown fetch error
propagates out of the handler. -/
def GET_run (req : ProxyRequest) (backend : FetchResult) : HandlerResult :=
  let call : OutboundRequest := ⟨targetUrl req, "GET", req.headers, none⟩
  match backend with
  | Except.error e => (Except.error e, [call])
  | Except.ok resp => (Except.ok (relayResponse resp), [call])

/-- The POST handler: try/catch around the whole body. -/
def POST_run (req : ProxyRequest) (backend : FetchResult) : HandlerResult :=
  let call : OutboundRequest :=
    ⟨targetUrl req, "POST", buildHeadersWithCookies req, bodyOpt req.body⟩
  match backend with
  | Except.error e => (Except.ok (syntheticError e), [call])
  | Except.ok resp => (Except.ok (relayResponse resp), [call])

/-- The PUT handler: try/catch around the whole body. -/
def PUT_run (req : ProxyRequest) (backend : FetchResult) : HandlerResult :=
  let call : OutboundRequest :=
    ⟨targetUrl req, "PUT", buildHeadersWithCookies req, bodyOpt req.body⟩
  match backend with
  | Except.error e => (Except.ok (syntheticError e), [call])
  | Except.ok resp => (Except.ok (relayResponse resp), [call])

/-- The DELETE handler: try/catch around the whole body. -/
def DELETE_run (req : ProxyRequest) (backend : FetchResult) : HandlerResult :=
  let call : OutboundRequest :=
    ⟨targetUrl req, "DELETE", buildHeadersWithCookies req, bodyOpt req.body⟩
  match backend with
  | Except.error e => (Except.ok (syntheticError e), [call])
  | Except.ok resp => (Except.ok (relayResponse resp), [call])

/-! ### Forwarder helper lemmas -/

theorem strAppendAssoc (a b c : String) : a ++ b ++ c = a ++ (b ++ c) := by
  cases a with
  | mk la =>
    cases b with
    | mk lb =>
      cases c with
      | mk lc =>
        show String.mk ((la ++ lb) ++ lc) = String.mk (la ++ (lb ++ lc))
        rw [List.append_assoc]

/-- Whether a handler outcome is an HTTP response with status 500. -/
def returnsStatus500 (r : Except String OutResponse) : Bool :=
  match r with
  | Except.ok out => out.status == 500
  | Except.error _ => false

/-! ### Claim C1 -/

def reqC1g : ProxyRequest := ⟨["products", "1"], "", [], [], ""⟩

/-- Claim C1 counterexample: the GET handler has no try/catch, so when the
outbound fetch throws, the exception propagates and no synthetic 500 response
is produced — the claim fails for the GET verb. -/
theorem get_handler_error_not_caught :
    (GET_run reqC1g (Except.error "fetch failed")).1 = Except.error "fetch failed" ∧
    returnsStatus500 (GET_run reqC1g (Except.error "fetch failed")).1 = false :=
  ⟨rfl, rfl⟩

/-- Claim C1 (amended): for the POST, PUT and DELETE handlers, a thrown fetch
produces a synthetic response with status 500 and a JSON body whose single
field is named "error", after exactly one outbound attempt (no retry). The
GET handler, by contrast, does not catch (see the counterexample). -/
theorem mutating_handlers_catch_fetch_errors (req : ProxyRequest) (e : String)
    (vrun : ProxyRequest → FetchResult → HandlerResult)
    (hv : vrun = POST_run ∨ vrun = PUT_run ∨ vrun = DELETE_run) :
    (vrun req (Except.error e)).1 = Except.ok (syntheticError e) ∧
    (syntheticError e).status = 500 ∧
    (∃ rest, (syntheticError e).body = "\x7b\"error\":" ++ rest) ∧
    (vrun req (Except.error e)).2.length = 1 := by
  refine ⟨?_, rfl,
    ⟨jsonStringLit ("Route handler error: " ++ e) ++ "\x7d", ?_⟩, ?_⟩
  · rcases hv with rfl | rfl | rfl <;> rfl
  · show errorEnvelope e = _
    rw [errorEnvelope, strAppendAssoc]
  · rcases hv with rfl | rfl | rfl <;> rfl

def reqC1 : ProxyRequest := ⟨["orders"], "", [], [], ""⟩

/-- Claim C1 amended-claim witness at a concrete POST request and error. -/
theorem mutating_handlers_catch_fetch_errors_witness :
    (POST_run reqC1 (Except.error "network down")).1 =
      Except.ok (syntheticError "network down") ∧
    (syntheticError "network down").status = 500 ∧
    (∃ rest, (syntheticError "network down").body = "\x7b\"error\":" ++ rest) ∧
    (POST_run reqC1 (Except.error "network down")).2.length = 1 :=
  mutating_handlers_catch_fetch_errors reqC1 "network down" POST_run (Or.inl rfl)

/-! ### Claim C5 -/

/-- Claim C5: a GET request makes exactly one outbound call, with method GET,
to the concatenation of the backend origin, the API path piece, the wildcard
segments joined by "/", and the query string when non-empty, with the
incoming headers passed along verbatim; in particular segments
["products", "1"] with query "locale=pt" target
"http://localhost:8000/api/products/1?locale=pt". -/
theorem get_single_outbound_call (segs : List String) (q : String)
    (hdrs : List (String × String)) (cookies : CookieJar) (body : String)
    (backend : FetchResult) :
    (GET_run ⟨segs, q, hdrs, cookies, body⟩ backend).2 =
      [⟨"http://localhost:8000/api/" ++ String.intercalate "/" segs ++
        (if q.data.isEmpty then "" else "?" ++ q), "GET", hdrs, none⟩] ∧
    targetUrl ⟨["products", "1"], "locale=pt", hdrs, cookies, body⟩ =
      "http://localhost:8000/api/products/1?locale=pt" := by
  constructor
  · cases backend <;> rfl
  · rfl

/-! ### Claim C9 -/

def resultBody (r : Except String OutResponse) : Option String :=
  match r with
  | Except.ok out => some out.body
  | Except.error _ => none

def resultStatus (r : Except String OutResponse) : Option Nat :=
  match r with
  | Except.ok out => some out.status
  | Except.error _ => none

/-- Claim C9: the GET handler is a pure function of the incoming request and
the backend response — it takes no state and mutates none — so two runs on
identical inputs produce identical outcomes, in particular byte-identical
bodies and equal status codes. -/
theorem get_forwarder_deterministic (r1 r2 : ProxyRequest)
    (b1 b2 : FetchResult) (hr : r1 = r2) (hb : b1 = b2) :
    GET_run r1 b1 = GET_run r2 b2 ∧
    resultBody (GET_run r1 b1).1 = resultBody (GET_run r2 b2).1 ∧
    resultStatus (GET_run r1 b1).1 = resultStatus (GET_run r2 b2).1 := by
  subst hr
  subst hb
  exact ⟨rfl, rfl, rfl⟩

def reqC9 : ProxyRequest := ⟨["products"], "locale=pt", [("Accept", "text/html")], [], ""⟩

def respC9 : BackendResponse := ⟨200, [("Content-Type", "text/html")], "body-bytes"⟩

/-- Claim C9 witness: two identical concrete runs agree. -/
theorem get_forwarder_deterministic_witness :
    GET_run reqC9 (Except.ok respC9) = GET_run reqC9 (Except.ok respC9) ∧
    resultBody (GET_run reqC9 (Except.ok respC9)).1 =
      resultBody (GET_run reqC9 (Except.ok respC9)).1 ∧
    resultStatus (GET_run reqC9 (Except.ok respC9)).1 =
      resultStatus (GET_run reqC9 (Except.ok respC9)).1 :=
  get_forwarder_deterministic reqC9 reqC9 (Except.ok respC9) (Except.ok respC9)
    rfl rfl

/-! ### Set-Cookie relay lemmas -/

/-- The Set-Cookie values of a header list, in order. -/
def setCookieValues (hs : List (String × String)) : List String :=
  (hs.filter (fun p => isSetCookieKey p.1)).map (fun p => p.2)

theorem setCookieValues_cons (p : String × String) (t : List (String × String)) :
    setCookieValues (p :: t) =
      (if isSetCookieKey p.1 then [p.2] else []) ++ setCookieValues t := by
  by_cases h : isSetCookieKey p.1 <;> simp [setCookieValues, List.filter_cons, h]

theorem setCookieValues_appendOne (hs : List (String × String)) (k v : String) :
    setCookieValues (hs ++ [(k, v)]) =
      setCookieValues hs ++ (if isSetCookieKey k then [v] else []) := by
  by_cases h : isSetCookieKey k <;>
    simp [setCookieValues, List.filter_append, List.filter_cons, h]

theorem setCookieValues_filter_ne (hs : List (String × String)) (k : String)
    (h : isSetCookieKey k = false) :
    setCookieValues (hs.filter (fun p => strToLower p.1 != strToLower k)) =
      setCookieValues hs := by
  induction hs with
  | nil => rfl
  | cons a t ih =>
    by_cases hsc : isSetCookieKey a.1
    · have ha : strToLower a.1 = "set-cookie" := by
        simpa [isSetCookieKey] using hsc
      have hk : strToLower k ≠ "set-cookie" := by
        intro hkk
        rw [isSetCookieKey, hkk] at h
        simp at h
      have hne : (strToLower a.1 != strToLower k) = true := by
        rw [ha, bne_iff_ne]
        exact fun hh => hk hh.symm
      rw [List.filter_cons, if_pos hne, setCookieValues_cons, setCookieValues_cons, ih]
    · by_cases hne : (strToLower a.1 != strToLower k) = true
      · rw [List.filter_cons, if_pos hne, setCookieValues_cons, setCookieValues_cons, ih]
      · rw [List.filter_cons, if_neg hne, setCookieValues_cons, ih]
        simp [hsc]

theorem setCookieValues_setHeader (hs : List (String × String)) (k v : String)
    (h : isSetCookieKey k = false) :
    setCookieValues (setHeader hs k v) = setCookieValues hs := by
  rw [setHeader, setCookieValues_appendOne, setCookieValues_filter_ne hs k h, h]
  simp

theorem relay_setCookieValues (hs : List (String × String)) :
    ∀ acc, setCookieValues (hs.foldl relayStep acc) =
      setCookieValues acc ++ setCookieValues hs := by
  induction hs with
  | nil =>
    intro acc
    simp [setCookieValues]
  | cons p t ih =>
    intro acc
    rw [List.foldl_cons, ih, setCookieValues_cons, ← List.append_assoc]
    congr 1
    unfold relayStep
    by_cases h1 : isSetCookieKey p.1 = true
    · rw [if_pos h1, appendHeader, setCookieValues_appendOne, h1]
    · have h1f : isSetCookieKey p.1 = false := by simpa using h1
      rw [if_neg h1]
      by_cases h2 : isDroppedKey p.1 = true
      · rw [if_pos h2, h1f]
        simp
      · rw [if_neg h2, setCookieValues_setHeader acc p.1 p.2 h1f, h1f]
        simp

/-- For every handler, a successful relay returns exactly the relayed backend
response. -/
theorem handler_ok_relay (req : ProxyRequest) (resp : BackendResponse)
    (out : OutResponse)
    (vrun : ProxyRequest → FetchResult → HandlerResult)
    (hv : vrun = GET_run ∨ vrun = POST_run ∨ vrun = PUT_run ∨ vrun = DELETE_run)
    (hout : (vrun req (Except.ok resp)).1 = Except.ok out) :
    out = relayResponse resp := by
  rcases hv with rfl | rfl | rfl | rfl <;> exact (Except.ok.inj hout).symm

/-! ### Claim C3 -/

/-- Claim C3: for every verb handler, the outgoing response carries exactly
the backend list of Set-Cookie values as separate headers, in order — the
relay appends each one rather than merging them. -/
theorem set_cookie_headers_preserved (req : ProxyRequest)
    (resp : BackendResponse) (out : OutResponse)
    (vrun : ProxyRequest → FetchResult → HandlerResult)
    (hv : vrun = GET_run ∨ vrun = POST_run ∨ vrun = PUT_run ∨ vrun = DELETE_run)
    (hout : (vrun req (Except.ok resp)).1 = Except.ok out) :
    setCookieValues out.headers = setCookieValues resp.headers ∧
    (setCookieValues out.headers).length =
      (setCookieValues resp.headers).length := by
  have hrel := handler_ok_relay req resp out vrun hv hout
  subst hrel
  have key := relay_setCookieValues resp.headers []
  constructor
  · simpa [relayResponse, relayHeaders, setCookieValues] using key
  · have : setCookieValues (relayResponse resp).headers =
        setCookieValues resp.headers := by
      simpa [relayResponse, relayHeaders, setCookieValues] using key
    rw [this]

def reqC3 : ProxyRequest := ⟨["auth", "login"], "", [], [], ""⟩

def respC3 : BackendResponse :=
  ⟨200, [("Set-Cookie", "a=1"), ("Set-Cookie", "b=2"),
    ("Content-Type", "application/json")], "ok"⟩

/-- Claim C3 witness: a backend response with two Set-Cookie headers yields
two separate Set-Cookie headers, values "a=1" and "b=2". -/
theorem set_cookie_headers_preserved_witness :
    (setCookieValues (relayResponse respC3).headers =
        setCookieValues respC3.headers ∧
      (setCookieValues (relayResponse respC3).headers).length =
        (setCookieValues respC3.headers).length) ∧
    setCookieValues (relayResponse respC3).headers = ["a=1", "b=2"] :=
  ⟨set_cookie_headers_preserved reqC3 respC3 (relayResponse respC3) GET_run
    (Or.inl rfl) rfl, by decide⟩

/-! ### Cookie header lemmas -/

theorem filter_ne_then_eq_nil (hs : List (String × String)) (s : String) :
    (hs.filter (fun p => strToLower p.1 != s)).filter
      (fun p => strToLower p.1 == s) = [] := by
  induction hs with
  | nil => rfl
  | cons a t ih =>
    by_cases hne : (strToLower a.1 != s) = true
    · have heq : (strToLower a.1 == s) = false := by
        rw [bne_iff_ne] at hne
        simpa using hne
      rw [List.filter_cons, if_pos hne, List.filter_cons, heq]
      simp only [Bool.false_eq_true, if_false]
      exact ih
    · rw [List.filter_cons, if_neg hne]
      exact ih

theorem cookie_filter_setHeader (hs : List (String × String)) (v : String) :
    (setHeader hs "Cookie" v).filter (fun p => strToLower p.1 == "cookie") =
      [("Cookie", v)] := by
  have hck : strToLower "Cookie" = "cookie" := by decide
  rw [setHeader]
  simp only [hck]
  rw [List.filter_append, filter_ne_then_eq_nil hs "cookie"]
  have hcv : (strToLower "Cookie" == "cookie") = true := by decide
  rw [List.filter_cons, hcv]
  rfl

theorem setHeader_mem (hs : List (String × String)) (k v : String)
    (p : String × String) (hp : p ∈ hs)
    (hne : (strToLower p.1 == strToLower k) = false) :
    p ∈ setHeader hs k v := by
  rw [setHeader]
  apply List.mem_append_left
  apply List.mem_filter.mpr
  refine ⟨hp, ?_⟩
  rw [bne_iff_ne]
  intro hh
  rw [hh] at hne
  simp at hne

/-! ### Claim C6 -/

def reqC6 : ProxyRequest :=
  ⟨["cart"], "", [("X-Custom", "abc")], [("a", "1")], "x"⟩

/-- Claim C6 counterexample: the outbound headers are not rebuilt from
scratch — the incoming header "X-Custom" of this POST request survives into
the outbound headers, because buildHeadersWithCookies starts from a copy of
the incoming headers. -/
theorem mutating_headers_counterexample :
    ("X-Custom", "abc") ∈ buildHeadersWithCookies reqC6 ∧
    buildHeadersWithCookies reqC6 = [("X-Custom", "abc"), ("Cookie", "a=1")] := by
  refine ⟨by decide, by decide⟩

/-- Claim C6 (amended): for POST, PUT and DELETE the outbound headers are a
copy of the incoming request headers in which, when the request carries at
least one cookie, the Cookie header is replaced by a single Cookie header
whose value is the cookies re-serialized as name=value pairs joined by "; ";
every non-Cookie incoming header is preserved. -/
theorem mutating_cookie_header (req : ProxyRequest)
    (vrun : ProxyRequest → FetchResult → HandlerResult)
    (hv : vrun = POST_run ∨ vrun = PUT_run ∨ vrun = DELETE_run)
    (backend : FetchResult)
    (hcook : req.cookies ≠ [])
    (p : String × String) (hp : p ∈ req.headers)
    (hpk : (strToLower p.1 == "cookie") = false) :
    (vrun req backend).2.map (fun c => c.headers) = [buildHeadersWithCookies req] ∧
    (buildHeadersWithCookies req).filter (fun q => strToLower q.1 == "cookie") =
      [("Cookie", cookieHeaderValue req.cookies)] ∧
    p ∈ buildHeadersWithCookies req := by
  have hemp : req.cookies.isEmpty = false := by
    cases hc : req.cookies
    · exact absurd hc hcook
    · rfl
  have hbuild : buildHeadersWithCookies req =
      setHeader req.headers "Cookie" (cookieHeaderValue req.cookies) := by
    rw [buildHeadersWithCookies, hemp]
    simp
  refine ⟨?_, ?_, ?_⟩
  · rcases hv with rfl | rfl | rfl <;> cases backend <;> rfl
  · rw [hbuild, cookie_filter_setHeader]
  · rw [hbuild]
    apply setHeader_mem req.headers "Cookie" (cookieHeaderValue req.cookies) p hp
    have hck : strToLower "Cookie" = "cookie" := by decide
    rw [hck]
    exact hpk

def reqC6w : ProxyRequest :=
  ⟨["orders", "7"], "", [("Accept", "text/html")],
    [("session_id", "s"), ("csrf", "t")], "payload"⟩

/-- Claim C6 amended-claim witness: a concrete PUT request with two cookies
gets a single Cookie header "session_id=s; csrf=t" and keeps its Accept
header. -/
theorem mutating_cookie_header_witness :
    (PUT_run reqC6w (Except.error "down")).2.map (fun c => c.headers) =
      [buildHeadersWithCookies reqC6w] ∧
    (buildHeadersWithCookies reqC6w).filter
      (fun q => strToLower q.1 == "cookie") =
      [("Cookie", cookieHeaderValue reqC6w.cookies)] ∧
    ("Accept", "text/html") ∈ buildHeadersWithCookies reqC6w :=
  mutating_cookie_header reqC6w PUT_run (Or.inr (Or.inl rfl))
    (Except.error "down") (by decide) ("Accept", "text/html") (by decide)
    (by decide)

/-! ### Dropped-header lemmas -/

theorem setCookie_not_dropped (k : String) (h : isSetCookieKey k = true) :
    isDroppedKey k = false := by
  have hk : strToLower k = "set-cookie" := by simpa [isSetCookieKey] using h
  rw [isDroppedKey, hk]
  decide

/-- The relay loop never introduces a transfer-encoding or content-encoding
header into an accumulator free of them. -/
theorem relay_no_dropped (hs : List (String × String)) :
    ∀ acc, (∀ r ∈ acc, isDroppedKey r.1 = false) →
      ∀ q ∈ hs.foldl relayStep acc, isDroppedKey q.1 = false := by
  induction hs with
  | nil =>
    intro acc hacc q hq
    rw [List.foldl_nil] at hq
    exact hacc q hq
  | cons p t ih =>
    intro acc hacc q hq
    rw [List.foldl_cons] at hq
    refine ih (relayStep acc p) ?_ q hq
    intro r hr
    rw [relayStep] at hr
    by_cases h1 : isSetCookieKey p.1 = true
    · rw [if_pos h1, appendHeader] at hr
      rcases List.mem_append.mp hr with h | h
      · exact hacc r h
      · have hrp : r = (p.1, p.2) := by simpa using h
        rw [hrp]
        exact setCookie_not_dropped p.1 h1
    · rw [if_neg h1] at hr
      by_cases h2 : isDroppedKey p.1 = true
      · rw [if_pos h2] at hr
        exact hacc r hr
      · rw [if_neg h2, setHeader] at hr
        rcases List.mem_append.mp hr with h | h
        · exact hacc r (List.mem_filter.mp h).1
        · have hrp : r = (p.1, p.2) := by simpa using h
          rw [hrp]
          simpa using h2

/-- The lowercased key names of a header list. -/
def lowerKeys (hs : List (String × String)) : List String :=
  hs.map (fun p => strToLower p.1)

/-- A key name present in the accumulator stays present through the relay
loop: append only adds, and set re-adds the key it removes. -/
theorem lowerKeys_mono (hs : List (String × String)) :
    ∀ acc s, s ∈ lowerKeys acc → s ∈ lowerKeys (hs.foldl relayStep acc) := by
  induction hs with
  | nil =>
    intro acc s h
    simpa using h
  | cons p t ih =>
    intro acc s h
    rw [List.foldl_cons]
    refine ih (relayStep acc p) s ?_
    rw [relayStep]
    by_cases h1 : isSetCookieKey p.1 = true
    · rw [if_pos h1, lowerKeys, appendHeader, List.map_append]
      exact List.mem_append_left _ h
    · rw [if_neg h1]
      by_cases h2 : isDroppedKey p.1 = true
      · rw [if_pos h2]
        exact h
      · rw [if_neg h2, lowerKeys, setHeader, List.map_append, List.mem_append]
        rw [lowerKeys] at h
        obtain ⟨r, hr, hrs⟩ := List.mem_map.mp h
        by_cases he : strToLower r.1 = strToLower p.1
        · right
          rw [← hrs, he]
          simp
        · left
          apply List.mem_map.mpr
          refine ⟨r, List.mem_filter.mpr ⟨hr, ?_⟩, hrs⟩
          rw [bne_iff_ne]
          exact he

/-- Any backend header that is neither Set-Cookie nor a dropped encoding
header ends up with its key present in the relayed headers. -/
theorem relay_key_present (p : String × String)
    (hsc : isSetCookieKey p.1 = false) (hdrop : isDroppedKey p.1 = false) :
    ∀ (hs : List (String × String)) (acc : List (String × String)), p ∈ hs →
      strToLower p.1 ∈ lowerKeys (hs.foldl relayStep acc) := by
  intro hs
  induction hs with
  | nil =>
    intro acc hp
    cases hp
  | cons a t ih =>
    intro acc hp
    rw [List.foldl_cons]
    rcases List.mem_cons.mp hp with rfl | ht
    · apply lowerKeys_mono t
      rw [relayStep, if_neg (by simp [hsc]), if_neg (by simp [hdrop])]
      rw [lowerKeys, setHeader, List.map_append]
      apply List.mem_append_right
      simp
    · exact ih (relayStep acc a) ht

/-! ### Claim C8 -/

/-- Claim C8: for all four handlers, a successful relay preserves the backend
status code, never emits a Transfer-Encoding or Content-Encoding header, and
copies every other non-Set-Cookie backend header (its key is present in the
outgoing headers). -/
theorem encodings_never_forwarded (req : ProxyRequest) (resp : BackendResponse)
    (out : OutResponse)
    (vrun : ProxyRequest → FetchResult → HandlerResult)
    (hv : vrun = GET_run ∨ vrun = POST_run ∨ vrun = PUT_run ∨ vrun = DELETE_run)
    (hout : (vrun req (Except.ok resp)).1 = Except.ok out)
    (p : String × String) (hp : p ∈ resp.headers)
    (hpsc : isSetCookieKey p.1 = false) (hpdrop : isDroppedKey p.1 = false)
    (q : String × String) (hq : q ∈ out.headers) :
    out.status = resp.status ∧
    isDroppedKey q.1 = false ∧
    strToLower p.1 ∈ lowerKeys out.headers := by
  have hrel := handler_ok_relay req resp out vrun hv hout
  subst hrel
  refine ⟨rfl, ?_, ?_⟩
  · exact relay_no_dropped resp.headers [] (by intro r hr; cases hr) q hq
  · exact relay_key_present p hpsc hpdrop resp.headers [] hp

def reqC8 : ProxyRequest := ⟨["products"], "", [], [], ""⟩

def respC8 : BackendResponse :=
  ⟨201, [("Transfer-Encoding", "chunked"), ("Content-Type", "text/html"),
    ("Content-Encoding", "gzip")], "payload"⟩

/-- Claim C8 witness: a backend response carrying Transfer-Encoding and
Content-Encoding relays only its Content-Type header, with status kept. -/
theorem encodings_never_forwarded_witness :
    ((relayResponse respC8).status = respC8.status ∧
      isDroppedKey ("Content-Type", "text/html").1 = false ∧
      strToLower ("Content-Type", "text/html").1 ∈
        lowerKeys (relayResponse respC8).headers) ∧
    relayHeaders respC8.headers = [("Content-Type", "text/html")] :=
  ⟨encodings_never_forwarded reqC8 respC8 (relayResponse respC8) GET_run
    (Or.inl rfl) rfl ("Content-Type", "text/html") (by decide) (by decide)
    (by decide) ("Content-Type", "text/html") (by decide), by decide⟩

end ScarfStore
